import Mathlib

/-!
Verification of the search1api MCP server (src/server.py): a tool catalog
(search, news, crawl) plus a dispatch adapter that forwards each invocation
to the upstream provider over HTTPS and relays its JSON `results` field.

The embedding is shallow: Python dict arguments become association lists of
JSON values, the upstream HTTP interaction becomes a function from endpoint
and request body to an abstract response, and `handle_call_tool` becomes a
pure function returning both its result (a text reply or a propagated
exception) and the list of outbound provider requests it issued.
-/

namespace Search1api

/-- JSON values, as decoded by Python's json machinery.  Numbers are
modelled as integers (the claims only exercise integral numbers). -/
inductive Json where
  | null : Json
  | bool (b : Bool) : Json
  | num (n : Int) : Json
  | str (s : String) : Json
  | arr (xs : List Json) : Json
  | obj (fields : List (String × Json)) : Json
deriving Repr

/-- Association-list lookup, modelling Python dict membership/indexing
(`k in d`, `d[k]`, `d.get(k, default)`).  Python dict keys are unique, so
first-match lookup agrees with dict semantics. -/
def alookup : List (String × Json) → String → Option Json
  | [], _ => none
  | (k, v) :: rest, key => if k = key then some v else alookup rest key

/-- Python truthiness of a decoded JSON value (`if not x`): None, False,
0, "", [] and {} are falsy, everything else truthy. -/
def Json.truthy : Json → Bool
  | Json.null => false
  | Json.bool b => b
  | Json.num n => n != 0
  | Json.str s => s != ""
  | Json.arr xs => !xs.isEmpty
  | Json.obj fs => !fs.isEmpty

/-- Escaping of one character inside a JSON string literal, as performed by
Python's json.dumps for the characters exercised here (quote, backslash and
the common control characters; other characters pass through unchanged). -/
def escapeJsonChar (c : Char) : String :=
  if c = '"' then "\\\""
  else if c = '\\' then "\\\\"
  else if c = '\n' then "\\n"
  else if c = '\t' then "\\t"
  else if c = '\r' then "\\r"
  else String.singleton c

/-- Escape a string for inclusion in a JSON string literal. -/
def escapeJson (s : String) : String :=
  String.join (s.toList.map escapeJsonChar)

mutual

/-- Python json.dumps with its default separators: elements joined by
", " and object keys joined to values by ": ", keys in insertion order. -/
def dumps : Json → String
  | Json.null => "null"
  | Json.bool true => "true"
  | Json.bool false => "false"
  | Json.num n => toString n
  | Json.str s => "\"" ++ escapeJson s ++ "\""
  | Json.arr xs => "[" ++ dumpsList xs ++ "]"
  | Json.obj fs => "\x7b" ++ dumpsFields fs ++ "\x7d"

/-- Serialize the elements of a JSON array, separated by ", ". -/
def dumpsList : List Json → String
  | [] => ""
  | [x] => dumps x
  | x :: y :: rest => dumps x ++ ", " ++ dumpsList (y :: rest)

/-- Serialize the key/value pairs of a JSON object, separated by ", ". -/
def dumpsFields : List (String × Json) → String
  | [] => ""
  | [(k, v)] => "\"" ++ escapeJson k ++ "\": " ++ dumps v
  | (k, v) :: kv :: rest =>
      "\"" ++ escapeJson k ++ "\": " ++ dumps v ++ ", " ++ dumpsFields (kv :: rest)

end

/-- Exceptions that the dispatch code can raise: ValueError for an unknown
tool name, KeyError for indexing a dict at a missing key, TypeError for
indexing a non-dict JSON value with a string key. -/
inductive PyExn where
  | valueError (msg : String) : PyExn
  | keyError (k : String) : PyExn
  | typeError : PyExn
deriving DecidableEq, Repr

/-- Python subscription `j["key"]` on a decoded JSON value: succeeds only
on an object containing the key; a missing key raises KeyError and any
non-object value raises TypeError. -/
def Json.index (j : Json) (key : String) : Except PyExn Json :=
  match j with
  | Json.obj fields =>
      match alookup fields key with
      | some v => Except.ok v
      | none => Except.error (PyExn.keyError key)
  | _ => Except.error PyExn.typeError

/-- Outcome of one outbound HTTP POST to the provider: either the request
itself raised (connection failure, timeout), or an HTTP response arrived
with a status code and a body.  The body is `none` when it is not
decodable as JSON (`response.json()` raises) and `some j` otherwise. -/
inductive UpstreamResponse where
  | transportError : UpstreamResponse
  | http (status : Nat) (body : Option Json) : UpstreamResponse
deriving Repr

/-- The upstream provider, abstracted as a function from endpoint path and
JSON request body to the response of the single POST issued for them. -/
def Upstream : Type := String → Json → UpstreamResponse

/-- `make_search_request` (src/server.py:111-128): POST the body to the
endpoint and return the decoded JSON on a 2xx response; any exception —
transport error, `raise_for_status` on a non-2xx status, or a JSON decode
failure — is caught, logged, and turned into None. -/
def make_search_request (resp : UpstreamResponse) : Option Json :=
  match resp with
  | UpstreamResponse.transportError => none
  | UpstreamResponse.http status body =>
      if 200 ≤ status ∧ status < 300 then body else none

/-- Python truthiness of `make_search_request`'s return value
(`if not search_data`): None is falsy, a JSON value by `Json.truthy`. -/
def optTruthy : Option Json → Bool
  | none => false
  | some j => j.truthy

/-- What `handle_call_tool` produces for the caller: a single text content
item (the spec's InvocationResult, rendered as text — a Failure is a reply
carrying an error message), or an exception propagated out of the handler. -/
inductive CallResult where
  | reply (text : String) : CallResult
  | raised (e : PyExn) : CallResult
deriving DecidableEq, Repr

/-- One outbound provider request: endpoint path and JSON body. -/
structure ProviderRequest where
  endpoint : String
  body : Json
deriving Repr

/-- One schema property of a tool's inputSchema: JSON type, optional
default value and optional numeric bounds. -/
structure SchemaProperty where
  name : String
  type : String
  default : Option Json := none
  minimum : Option Int := none
  maximum : Option Int := none
deriving Repr

/-- A tool descriptor as returned by `handle_list_tools`: name,
description, and an object inputSchema given by its properties and its
list of required property names. -/
structure Tool where
  name : String
  description : String
  properties : List SchemaProperty
  required : List String
deriving Repr

/-- `handle_list_tools` (src/server.py:25-109): the static tool catalog.
The `sitemap` tool is commented out in the source and therefore absent.
Modelled as a function of Unit to state purity/idempotence. -/
def handle_list_tools : Unit → List Tool := fun _ =>
  [ { name := "search",
      description := "A fast way to search the world",
      properties :=
        [ { name := "query", type := "string" },
          { name := "max_results", type := "number",
            default := some (Json.num 10), minimum := some 1, maximum := some 50 },
          { name := "search_service", type := "string",
            default := some (Json.str "google") } ],
      required := ["query"] },
    { name := "news",
      description := "Search for news articles",
      properties :=
        [ { name := "query", type := "string" },
          { name := "max_results", type := "number",
            default := some (Json.num 10), minimum := some 1, maximum := some 50 },
          { name := "search_service", type := "string",
            default := some (Json.str "google") } ],
      required := ["query"] },
    { name := "crawl",
      description := "Extract content from URL",
      properties := [ { name := "url", type := "string" } ],
      required := ["url"] } ]

/-- The request body built identically in the `search` and `news` branches
of `handle_call_tool` (src/server.py:152-156 and 169-173): the query plus
`max_results` defaulting to 10 and `search_service` defaulting to
"google". -/
def search_request_body (args : List (String × Json)) (q : Json) : Json :=
  Json.obj
    [ ("query", q),
      ("max_results", (alookup args "max_results").getD (Json.num 10)),
      ("search_service", (alookup args "search_service").getD (Json.str "google")) ]

/-- The response post-processing shared verbatim by all four tool branches
of `handle_call_tool` (e.g. src/server.py:158-163): a falsy
`make_search_request` result yields the branch's generic failure text;
otherwise the branch serializes the response's `results` (for sitemap,
`links`) field with json.dumps — where Python subscription may raise. -/
def relay_results (resp : Option Json) (key failMsg : String)
    (sent : List ProviderRequest) : CallResult × List ProviderRequest :=
  match resp with
  | none => (CallResult.reply failMsg, sent)
  | some j =>
    if j.truthy then
      match j.index key with
      | Except.ok v => (CallResult.reply (dumps v), sent)
      | Except.error e => (CallResult.raised e, sent)
    else (CallResult.reply failMsg, sent)

/-- `handle_call_tool` (src/server.py:130-209).  Given the upstream
provider, the tool name and the optional arguments dict, produce the
caller-visible result together with the list of outbound provider requests
issued (the trace is empty exactly when no network I/O occurred).  The
structure mirrors the source: None arguments short-circuit; each known
branch checks its required field, builds the request body, calls
`make_search_request` and post-processes via `relay_results`; an
unrecognized name raises ValueError. -/
def handle_call_tool (upstream : Upstream) (name : String)
    (arguments : Option (List (String × Json))) :
    CallResult × List ProviderRequest :=
  match arguments with
  | none => (CallResult.reply "No arguments provided", [])
  | some args =>
    if name = "search" then
      match alookup args "query" with
      | none => (CallResult.reply "Search query is required", [])
      | some q =>
        let request_data := search_request_body args q
        relay_results (make_search_request (upstream "/search" request_data))
          "results" "Failed to retrieve search results" [⟨"/search", request_data⟩]
    else if name = "news" then
      match alookup args "query" with
      | none => (CallResult.reply "News search query is required", [])
      | some q =>
        let request_data := search_request_body args q
        relay_results (make_search_request (upstream "/news" request_data))
          "results" "Failed to retrieve news results" [⟨"/news", request_data⟩]
    else if name = "crawl" then
      match alookup args "url" with
      | none => (CallResult.reply "URL is required", [])
      | some u =>
        let request_data := Json.obj [("url", u)]
        relay_results (make_search_request (upstream "/crawl" request_data))
          "results" "Failed to crawl URL" [⟨"/crawl", request_data⟩]
    else if name = "sitemap" then
      match alookup args "url" with
      | none => (CallResult.reply "URL is required", [])
      | some u =>
        let request_data := Json.obj [("url", u)]
        relay_results (make_search_request (upstream "/sitemap" request_data))
          "links" "Failed to retrieve sitemap" [⟨"/sitemap", request_data⟩]
    else
      (CallResult.raised (PyExn.valueError ("Unknown tool: " ++ name)), [])

/-- The required field of each of the three catalogued tools: `url` for
crawl, `query` for search and news. -/
def requiredArg (name : String) : String :=
  if name = "crawl" then "url" else "query"

/-- The generic failure message of each catalogued tool's branch. -/
def genericFailMsg (name : String) : String :=
  if name = "search" then "Failed to retrieve search results"
  else if name = "news" then "Failed to retrieve news results"
  else "Failed to crawl URL"

/-- The provider outcomes converted to a generic failure by the dispatch
code: a transport error, a non-2xx status, a 2xx response whose body does
not decode as JSON, or a 2xx response whose decoded JSON is falsy. -/
def failedOutcome (r : UpstreamResponse) : Prop :=
  r = UpstreamResponse.transportError ∨
  (∃ c b, r = UpstreamResponse.http c b ∧ ¬(200 ≤ c ∧ c < 300)) ∨
  (∃ c, r = UpstreamResponse.http c none) ∨
  (∃ c j, r = UpstreamResponse.http c (some j) ∧ j.truthy = false)

lemma relay_results_snd (resp : Option Json) (key msg : String)
    (sent : List ProviderRequest) : (relay_results resp key msg sent).2 = sent := by
  cases resp with
  | none => rfl
  | some j =>
      by_cases h : j.truthy
      · simp only [relay_results, h, if_true]
        cases j.index key <;> rfl
      · simp only [relay_results, if_neg h]

lemma relay_results_falsy (resp : Option Json) (key msg : String)
    (sent : List ProviderRequest) (h : optTruthy resp = false) :
    relay_results resp key msg sent = (CallResult.reply msg, sent) := by
  cases resp with
  | none => rfl
  | some j => simp only [optTruthy] at h; simp [relay_results, h]

lemma alookup_some_not_isEmpty {fs : List (String × Json)} {k : String} {v : Json}
    (h : alookup fs k = some v) : fs.isEmpty = false := by
  cases fs with
  | nil => simp [alookup] at h
  | cons kv rest => rfl

lemma relay_results_found {fs : List (String × Json)} {key : String} {v : Json}
    (msg : String) (sent : List ProviderRequest) (h : alookup fs key = some v) :
    relay_results (some (Json.obj fs)) key msg sent = (CallResult.reply (dumps v), sent) := by
  have ht : (Json.obj fs).truthy = true := by
    simp only [Json.truthy, alookup_some_not_isEmpty h, Bool.not_false]
  simp only [relay_results, ht, if_true, Json.index, h]

lemma make_search_request_of_error {r : UpstreamResponse}
    (h : r = UpstreamResponse.transportError ∨
      ∃ c b, r = UpstreamResponse.http c b ∧ ¬(200 ≤ c ∧ c < 300)) :
    make_search_request r = none := by
  rcases h with h | ⟨c, b, h, hc⟩ <;> subst h
  · rfl
  · simp only [make_search_request, if_neg hc]

lemma failedOutcome_falsy {r : UpstreamResponse} (h : failedOutcome r) :
    optTruthy (make_search_request r) = false := by
  rcases h with h | ⟨c, b, h, hc⟩ | ⟨c, h⟩ | ⟨c, j, h, hj⟩ <;> subst h
  · rfl
  · simp only [make_search_request, if_neg hc, optTruthy]
  · by_cases hc : 200 ≤ c ∧ c < 300 <;> simp [make_search_request, hc, optTruthy]
  · by_cases hc : 200 ≤ c ∧ c < 300 <;> simp [make_search_request, hc, optTruthy, hj]

lemma handle_call_tool_failed_branches (upstream : Upstream) (name : String)
    (args : List (String × Json)) (v : Json)
    (hname : name = "search" ∨ name = "news" ∨ name = "crawl")
    (hreq : alookup args (requiredArg name) = some v)
    (hfail : ∀ ep body, optTruthy (make_search_request (upstream ep body)) = false) :
    (handle_call_tool upstream name (some args)).1 =
      CallResult.reply (genericFailMsg name) := by
  rcases hname with h | h | h <;> subst h
  · have hq : alookup args "query" = some v := hreq
    have hr := relay_results_falsy _ "results" "Failed to retrieve search results"
      [⟨"/search", search_request_body args v⟩]
      (hfail "/search" (search_request_body args v))
    simp [handle_call_tool, hq, hr, genericFailMsg]
  · have hq : alookup args "query" = some v := hreq
    have hr := relay_results_falsy _ "results" "Failed to retrieve news results"
      [⟨"/news", search_request_body args v⟩]
      (hfail "/news" (search_request_body args v))
    simp [handle_call_tool, hq, hr, genericFailMsg]
  · have hu : alookup args "url" = some v := hreq
    have hr := relay_results_falsy _ "results" "Failed to crawl URL"
      [⟨"/crawl", Json.obj [("url", v)]⟩]
      (hfail "/crawl" (Json.obj [("url", v)]))
    simp [handle_call_tool, hu, hr, genericFailMsg]

/-- Claim C1 counterexample: a 2xx response whose decoded JSON is a truthy
object lacking the `results` key does NOT produce the generic Failure —
`search_data["results"]` raises a KeyError that propagates out of
`handle_call_tool`. -/
theorem call_tool_missing_results_key_raises :
    (handle_call_tool
        (fun _ _ => UpstreamResponse.http 200 (some (Json.obj [("error", Json.str "x")])))
        "search" (some [("query", Json.str "q")])).1
      = CallResult.raised (PyExn.keyError "results") ∧
    (handle_call_tool
        (fun _ _ => UpstreamResponse.http 200 (some (Json.obj [("error", Json.str "x")])))
        "search" (some [("query", Json.str "q")])).1
      ≠ CallResult.reply "Failed to retrieve search results" :=
  ⟨rfl, by decide⟩

/-- Claim C1 (amended): for every tool in search, news and crawl with its
required argument present, whenever the provider call ends in a transport
error, a non-2xx status, a 2xx body that does not decode as JSON, or a 2xx
body whose decoded JSON is falsy, handle_call_tool returns the
tool-specific generic failure message without raising; a 2xx truthy body
lacking the `results` key is excluded — there a KeyError propagates (see
the counterexample). -/
theorem call_tool_failed_upstream_generic_message (upstream : Upstream) (name : String)
    (args : List (String × Json)) (v : Json)
    (hname : name = "search" ∨ name = "news" ∨ name = "crawl")
    (hreq : alookup args (requiredArg name) = some v)
    (hfail : ∀ ep body, failedOutcome (upstream ep body)) :
    (handle_call_tool upstream name (some args)).1 =
      CallResult.reply (genericFailMsg name) :=
  handle_call_tool_failed_branches upstream name args v hname hreq
    (fun ep body => failedOutcome_falsy (hfail ep body))

/-- Claim C1 witness: a transport error on a search invocation yields the
generic search failure message. -/
theorem call_tool_failed_upstream_generic_message_witness :
    (handle_call_tool (fun _ _ => UpstreamResponse.transportError) "search"
        (some [("query", Json.str "q")])).1 =
      CallResult.reply (genericFailMsg "search") :=
  call_tool_failed_upstream_generic_message _ _ _ _ (Or.inl rfl) rfl
    (fun _ _ => Or.inl rfl)

/-- Claim C2 counterexample: "sitemap" is not in the advertised tool set
{search, news, crawl}, yet handle_call_tool does not raise an unknown-tool
error for it — a live sitemap branch returns a normal Failure reply. -/
theorem call_tool_sitemap_returns_failure :
    ("sitemap" ∉ ["search", "news", "crawl"]) ∧
    handle_call_tool (fun _ _ => UpstreamResponse.transportError) "sitemap" (some []) =
      (CallResult.reply "URL is required", []) ∧
    (handle_call_tool (fun _ _ => UpstreamResponse.transportError) "sitemap" (some [])).1
      ≠ CallResult.raised (PyExn.valueError ("Unknown tool: " ++ "sitemap")) :=
  ⟨by decide, rfl, by decide⟩

/-- Claim C2 (amended): for every name outside {search, news, crawl,
sitemap} — the source keeps a live sitemap dispatch branch even though the
tool is absent from the catalog — and every non-None arguments mapping,
handle_call_tool raises ValueError "Unknown tool: name" rather than
returning a normal Failure reply, and issues no provider request. -/
theorem call_tool_unknown_name_raises (upstream : Upstream) (name : String)
    (args : List (String × Json))
    (h : name ∉ ["search", "news", "crawl", "sitemap"]) :
    handle_call_tool upstream name (some args) =
      (CallResult.raised (PyExn.valueError ("Unknown tool: " ++ name)), []) := by
  simp only [List.mem_cons, List.not_mem_nil, or_false, not_or] at h
  obtain ⟨h1, h2, h3, h4⟩ := h
  simp [handle_call_tool, h1, h2, h3, h4]

/-- Claim C2 witness: an unrecognized tool name raises the unknown-tool
ValueError. -/
theorem call_tool_unknown_name_raises_witness :
    handle_call_tool (fun _ _ => UpstreamResponse.transportError) "frob" (some []) =
      (CallResult.raised (PyExn.valueError ("Unknown tool: " ++ "frob")), []) :=
  call_tool_unknown_name_raises _ "frob" [] (by decide)

/-- Claim C3: for every known tool name, whenever the arguments are None
or lack the tool's required field, handle_call_tool issues no provider
request (empty trace) and returns a Failure reply carrying one of the
missing-argument messages. -/
theorem call_tool_missing_required_no_network (upstream : Upstream) (name : String)
    (args : Option (List (String × Json)))
    (hname : name ∈ ["search", "news", "crawl"])
    (hmiss : args = none ∨ ∃ a, args = some a ∧ alookup a (requiredArg name) = none) :
    (handle_call_tool upstream name args).2 = [] ∧
    (handle_call_tool upstream name args).1 ∈
      [CallResult.reply "No arguments provided",
       CallResult.reply "Search query is required",
       CallResult.reply "News search query is required",
       CallResult.reply "URL is required"] := by
  rcases hmiss with h | ⟨a, h, hmiss⟩ <;> subst h
  · exact ⟨rfl, by simp [handle_call_tool]⟩
  · simp only [List.mem_cons, List.not_mem_nil, or_false] at hname
    rcases hname with h | h | h <;> subst h
    · have hq : alookup a "query" = none := hmiss
      constructor <;> simp [handle_call_tool, hq]
    · have hq : alookup a "query" = none := hmiss
      constructor <;> simp [handle_call_tool, hq]
    · have hu : alookup a "url" = none := hmiss
      constructor <;> simp [handle_call_tool, hu]

/-- Claim C3 witness: a search invocation with None arguments produces a
Failure without any outbound request. -/
theorem call_tool_missing_required_no_network_witness :
    (handle_call_tool (fun _ _ => UpstreamResponse.transportError) "search" none).2 = [] ∧
    (handle_call_tool (fun _ _ => UpstreamResponse.transportError) "search" none).1 ∈
      [CallResult.reply "No arguments provided",
       CallResult.reply "Search query is required",
       CallResult.reply "News search query is required",
       CallResult.reply "URL is required"] :=
  call_tool_missing_required_no_network _ "search" none (by decide) (Or.inl rfl)

/-- Claim C4: a news invocation with a query, whose upstream call times
out (transport error) or returns a non-2xx status, yields the Failure
reply "Failed to retrieve news results" and raises nothing. -/
theorem call_tool_news_upstream_error_failure (upstream : Upstream)
    (args : List (String × Json)) (q : Json)
    (hq : alookup args "query" = some q)
    (hfail : upstream "/news" (search_request_body args q) = UpstreamResponse.transportError ∨
      ∃ c b, upstream "/news" (search_request_body args q) = UpstreamResponse.http c b ∧
        ¬(200 ≤ c ∧ c < 300)) :
    (handle_call_tool upstream "news" (some args)).1 =
      CallResult.reply "Failed to retrieve news results" := by
  have hr : make_search_request (upstream "/news" (search_request_body args q)) = none :=
    make_search_request_of_error hfail
  simp [handle_call_tool, hq, hr, relay_results]

/-- Claim C4 witness: a timed-out news invocation yields the news failure
message. -/
theorem call_tool_news_upstream_error_failure_witness :
    (handle_call_tool (fun _ _ => UpstreamResponse.transportError) "news"
        (some [("query", Json.str "q")])).1 =
      CallResult.reply "Failed to retrieve news results" :=
  call_tool_news_upstream_error_failure _ _ _ rfl (Or.inl rfl)

/-- Claim C5: a crawl invocation whose upstream responds 2xx with a JSON
object whose `results` field is v returns a Success reply whose payload is
exactly the json.dumps serialization of v. -/
theorem call_tool_crawl_success_payload (upstream : Upstream) (u v : Json) (c : Nat)
    (fs : List (String × Json))
    (hresp : upstream "/crawl" (Json.obj [("url", u)]) =
      UpstreamResponse.http c (some (Json.obj fs)))
    (hc : 200 ≤ c ∧ c < 300)
    (hres : alookup fs "results" = some v) :
    (handle_call_tool upstream "crawl" (some [("url", u)])).1 =
      CallResult.reply (dumps v) := by
  have hr : make_search_request (upstream "/crawl" (Json.obj [("url", u)])) =
      some (Json.obj fs) := by
    rw [hresp]; simp [make_search_request, hc]
  simp [handle_call_tool, alookup, hr, relay_results_found _ _ hres]

/-- Claim C5 witness: crawling with upstream body containing results
equal to the array of the strings a and b yields its serialization. -/
theorem call_tool_crawl_success_payload_witness :
    (handle_call_tool
        (fun _ _ => UpstreamResponse.http 200
          (some (Json.obj [("results", Json.arr [Json.str "a", Json.str "b"])])))
        "crawl" (some [("url", Json.str "http://x")])).1 =
      CallResult.reply (dumps (Json.arr [Json.str "a", Json.str "b"])) :=
  call_tool_crawl_success_payload _ _ _ _ _ rfl (by decide) rfl

/-- Claim C6: for every arguments mapping lacking the key "query", search
returns Failure "Search query is required" and news returns Failure "News
search query is required", both with an empty outbound trace. -/
theorem call_tool_missing_query_failure (upstream : Upstream)
    (args : List (String × Json)) (h : alookup args "query" = none) :
    handle_call_tool upstream "search" (some args) =
      (CallResult.reply "Search query is required", []) ∧
    handle_call_tool upstream "news" (some args) =
      (CallResult.reply "News search query is required", []) :=
  ⟨by simp [handle_call_tool, h], by simp [handle_call_tool, h]⟩

/-- Claim C6 witness: the empty arguments mapping triggers both
query-is-required failures. -/
theorem call_tool_missing_query_failure_witness :
    handle_call_tool (fun _ _ => UpstreamResponse.transportError) "search" (some []) =
      (CallResult.reply "Search query is required", []) ∧
    handle_call_tool (fun _ _ => UpstreamResponse.transportError) "news" (some []) =
      (CallResult.reply "News search query is required", []) :=
  call_tool_missing_query_failure _ [] rfl

/-- Claim C7: a search invocation whose arguments are exactly the query q
sends one provider request to /search whose body is exactly query = q,
max_results = 10 and search_service = "google" — the schema defaults are
filled in. -/
theorem call_tool_search_default_filling (upstream : Upstream) (q : String) :
    (handle_call_tool upstream "search" (some [("query", Json.str q)])).2 =
      [⟨"/search", Json.obj [("query", Json.str q), ("max_results", Json.num 10),
          ("search_service", Json.str "google")]⟩] := by
  simp [handle_call_tool, alookup, search_request_body, relay_results_snd]

/-- Claim C8: handle_list_tools takes no input, is pure and idempotent,
and returns exactly three descriptors in the fixed order search, news,
crawl, whose required-field sets are query, query and url respectively. -/
theorem list_tools_catalog_spec :
    (∀ u v : Unit, handle_list_tools u = handle_list_tools v) ∧
    (handle_list_tools ()).map Tool.name = ["search", "news", "crawl"] ∧
    (handle_list_tools ()).map Tool.required = [["query"], ["query"], ["url"]] :=
  ⟨fun _ _ => rfl, rfl, rfl⟩

/-- Claim C9: for every tool in search, news and crawl with its required
argument present, a 2xx provider response whose decoded JSON body is falsy
(empty object, null, false, 0, empty string or empty array) is treated as
a failure: the tool's generic failure message is returned — success is
decided by the truthiness of the decoded body, not by HTTP success
alone. -/
theorem call_tool_falsy_2xx_body_generic_failure (upstream : Upstream) (name : String)
    (args : List (String × Json)) (v : Json) (c : Nat) (j : Json)
    (hname : name = "search" ∨ name = "news" ∨ name = "crawl")
    (hreq : alookup args (requiredArg name) = some v)
    (hup : ∀ ep body, upstream ep body = UpstreamResponse.http c (some j))
    (hc : 200 ≤ c ∧ c < 300)
    (hfalsy : j.truthy = false) :
    (handle_call_tool upstream name (some args)).1 =
      CallResult.reply (genericFailMsg name) := by
  refine handle_call_tool_failed_branches upstream name args v hname hreq ?_
  intro ep body
  rw [hup ep body]
  simp [make_search_request, hc, optTruthy, hfalsy]

/-- Claim C9 witness: a 200 response whose body is the empty JSON object
yields the generic search failure. -/
theorem call_tool_falsy_2xx_body_generic_failure_witness :
    (handle_call_tool (fun _ _ => UpstreamResponse.http 200 (some (Json.obj [])))
        "search" (some [("query", Json.str "q")])).1 =
      CallResult.reply (genericFailMsg "search") :=
  call_tool_falsy_2xx_body_generic_failure _ _ _ _ 200 _ (Or.inl rfl) rfl
    (fun _ _ => rfl) (by decide) rfl

/-- Claim C10: for search and news, whatever values are supplied for
max_results and search_service — of any magnitude or type, including
max_results outside the advertised bounds 1 to 50 — are forwarded
verbatim into the provider request body; no schema validation occurs. -/
theorem call_tool_forwards_optional_values_verbatim (upstream : Upstream)
    (name : String) (args : List (String × Json)) (q mv sv : Json)
    (hname : name = "search" ∨ name = "news")
    (hq : alookup args "query" = some q)
    (hm : alookup args "max_results" = some mv)
    (hs : alookup args "search_service" = some sv) :
    (handle_call_tool upstream name (some args)).2 =
      [⟨"/" ++ name, Json.obj [("query", q), ("max_results", mv), ("search_service", sv)]⟩] := by
  rcases hname with h | h <;> subst h <;>
    simp [handle_call_tool, hq, search_request_body, hm, hs, relay_results_snd]

/-- Claim C10 witness: max_results equal to 1000 (outside the advertised
bounds) and a boolean search_service are forwarded verbatim. -/
theorem call_tool_forwards_optional_values_verbatim_witness :
    (handle_call_tool (fun _ _ => UpstreamResponse.transportError) "search"
        (some [("query", Json.str "q"), ("max_results", Json.num 1000),
               ("search_service", Json.bool true)])).2 =
      [⟨"/" ++ "search",
        Json.obj [("query", Json.str "q"), ("max_results", Json.num 1000),
                  ("search_service", Json.bool true)]⟩] :=
  call_tool_forwards_optional_values_verbatim _ _ _ _ _ _ (Or.inl rfl) rfl rfl rfl

end Search1api
